import Mathlib

/-!
Shallow embedding of the Aquariux trading-platform automation engine
(`src/main.py`, class `AquariuxTrader`).  The remote UI is modelled by
explicit environments recording the outcome of each interaction a method
performs (element waits, clicks, notifications, table reads).  Each Python
method becomes a pure Lean function of its environment; exceptions that
propagate in Python become `Except PyExn` results, and exceptions the
Python code swallows become ordinary branches.
-/

namespace Aquariux

/-- Exceptions from the selenium layer, as classified by the retry logic of
`select_instrument`: `StaleElementReferenceException`, `TimeoutException`
and `ElementClickInterceptedException` are the transient class; everything
else is unclassified. -/
inductive PyExn where
  | staleElement
  | timeoutExn
  | clickIntercepted
  | otherExn (msg : String)
deriving DecidableEq, Repr

/-! ### Field filling (`set_order_size`, `_set_order_parameter`)

Both methods interact with a text input through the key sequence
`click; Ctrl+A; Delete; send_keys(value)`.  A field is modelled by its
textual content plus whether the content is currently selected. -/

structure FieldState where
  content : String
  allSelected : Bool
deriving DecidableEq, Repr

/-- Clicking the input focuses it and drops any selection. -/
def keyClick (s : FieldState) : FieldState :=
  { s with allSelected := false }

/-- `Ctrl+A` selects the whole content. -/
def keySelectAll (s : FieldState) : FieldState :=
  { s with allSelected := true }

/-- `Delete` erases the selection; with nothing selected (caret at end) it
changes nothing. -/
def keyDelete (s : FieldState) : FieldState :=
  if s.allSelected then { content := "", allSelected := false } else s

/-- `send_keys(v)` replaces the selection if there is one, otherwise
appends at the caret. -/
def keySend (v : String) (s : FieldState) : FieldState :=
  if s.allSelected then { content := v, allSelected := false }
  else { content := s.content ++ v, allSelected := false }

/-- The interaction sequence shared by `set_order_size` and
`_set_order_parameter`: click, select all, delete, type the value. -/
def fieldFill (v : String) (s : FieldState) : FieldState :=
  keySend v (keyDelete (keySelectAll (keyClick s)))

/-- `set_order_size(size)`: locate the volume input (the locate step may
raise, which the method catches and turns into `False`), then fill it.
Returns the Python return value and the resulting field state. -/
def set_order_size (locate : Except PyExn Unit) (size : String)
    (field : FieldState) : Bool × FieldState :=
  match locate with
  | .error _ => (false, field)
  | .ok _ => (true, fieldFill size field)

/-- `_set_order_parameter(input_testid, value_str)`: same clear-before-type
sequence against the input named by `input_testid`. -/
def set_order_parameter (locate : Except PyExn Unit) (input_testid : String)
    (value_str : String) (field : FieldState) : Bool × FieldState :=
  match locate with
  | .error _ => (false, field)
  | .ok _ => (true, fieldFill value_str field)

/-- `set_stop_loss(points, price)`: dispatches to `_set_order_parameter`
on the points input if `points` is given, else on the price input if
`price` is given, else returns `False`. -/
def set_stop_loss (locate : Except PyExn Unit) (points price : Option String)
    (field : FieldState) : Bool × FieldState :=
  match points with
  | some p => set_order_parameter locate "trade-input-stoploss-points" p field
  | none =>
    match price with
    | some pr => set_order_parameter locate "trade-input-stoploss-price" pr field
    | none => (false, field)

/-- `set_take_profit(points, price)`: same dispatch for the take-profit
inputs. -/
def set_take_profit (locate : Except PyExn Unit) (points price : Option String)
    (field : FieldState) : Bool × FieldState :=
  match points with
  | some p => set_order_parameter locate "trade-input-takeprofit-points" p field
  | none =>
    match price with
    | some pr => set_order_parameter locate "trade-input-takeprofit-price" pr field
    | none => (false, field)

/-! ### Diagnostics (`take_screenshot`) -/

/-- The file name `take_screenshot` builds before its try block:
`os.path.join(screenshot_dir, f"{name}_{timestamp}.png")`. -/
def screenshot_filename (dir name timestamp : String) : String :=
  dir ++ "/" ++ name ++ "_" ++ timestamp ++ ".png"

/-- `take_screenshot(name)`: compute the file name, attempt the capture
(whose outcome, success or any exception, is the `capture` argument), log
either way, and return the file name.  The except-clause swallows every
capture exception, so the function always returns a value. -/
def take_screenshot (capture : String → Except PyExn Unit)
    (dir name timestamp : String) : String :=
  let filename := screenshot_filename dir name timestamp
  match capture filename with
  | .ok _ => filename
  | .error _ => filename

/-! ### Reading the positions table (`get_open_positions`)

A table read is what the driver reports: the `No open positions` message,
a list of row observations, a wait timeout, or some other read error (the
latter two are caught and yield an empty list). -/

/-- One row of the open-positions table as observed while parsing: its
cell texts, or a stale-element failure, or another per-row parse error
(both of which the code logs and skips). -/
inductive RowObs where
  | cells (cols : List String)
  | staleRow
  | rowError
deriving DecidableEq, Repr

/-- Outcome of looking at the open-positions area. -/
inductive TableRead where
  | noPositionsMsg
  | rows (rs : List RowObs)
  | waitTimeout
  | readError
deriving DecidableEq, Repr

/-- Python `str.strip()`: drop leading and trailing whitespace. -/
def pyStrip (s : String) : String :=
  ⟨List.reverse (List.dropWhile Char.isWhitespace
    (List.reverse (List.dropWhile Char.isWhitespace s.data)))⟩

/-- Python `str.upper()` on the ASCII texts the table holds. -/
def pyUpper (s : String) : String :=
  ⟨s.data.map Char.toUpper⟩

/-- A Position Record as built by `get_open_positions`:
`instrument_for_verification` is set from the engine's in-memory
`current_instrument_selected`, the remaining fields from the row cells. -/
structure Position where
  instrument_for_verification : String
  open_date : String
  order_no : String
  type : String
  profit_loss : String
  size : String
  units : String
deriving DecidableEq, Repr

/-- Parse one observed row the way the row loop does: a row with at least
6 cells becomes a record (cell texts stripped, the type upper-cased, the
instrument taken from `current`); short rows, stale rows and erroring rows
are skipped. -/
def parseRow (current : String) : RowObs → Option Position
  | .cells cols =>
    if cols.length ≥ 6 then
      some { instrument_for_verification := current
             open_date := pyStrip (cols.getD 0 "")
             order_no := pyStrip (cols.getD 1 "")
             type := pyUpper (pyStrip (cols.getD 2 ""))
             profit_loss := pyStrip (cols.getD 3 "")
             size := pyStrip (cols.getD 4 "")
             units := pyStrip (cols.getD 5 "") }
    else none
  | .staleRow => none
  | .rowError => none

/-- `get_open_positions()`: empty on the `No open positions` message, on a
wait timeout, or on a read error; otherwise the parsed rows. `current` is
`self.current_instrument_selected`. -/
def get_open_positions (current : String) : TableRead → List Position
  | .noPositionsMsg => []
  | .rows rs => rs.filterMap (parseRow current)
  | .waitTimeout => []
  | .readError => []

/-- The table-row predicate `_place_order_and_verify` checks:
some position has the expected (upper-cased) side and its
`instrument_for_verification`, stripped, equals
`current_instrument_selected`. -/
def orderTableMatch (current sideUpper : String) (positions : List Position) : Bool :=
  positions.any fun pos =>
    pos.type == sideUpper && pyStrip pos.instrument_for_verification == current

/-! ### Order placement (`_place_order_and_verify`) -/

/-- The UI outcomes one invocation of `_place_order_and_verify` observes,
in the order the method consults them.  Steps whose exceptions the method
does not catch are `Except`; `notification` is whether the
`Market Order Submitted` toast appeared within its timeout. -/
structure PlaceOrderEnv where
  sideButton : Except PyExn Unit
  sizeLocate : Except PyExn Unit
  slLocate : Except PyExn Unit
  tpLocate : Except PyExn Unit
  placeButton : Except PyExn Unit
  confirm : Except PyExn Unit
  notification : Bool
  navigate : Bool
  table : TableRead
deriving Repr

/-- The three numeric inputs of the order form. -/
structure OrderForm where
  sizeField : FieldState
  slField : FieldState
  tpField : FieldState
deriving Repr

/-- `_place_order_and_verify(order_type, size, stop_loss_points,
take_profit_points)`: click the side button, fill size / stop-loss /
take-profit (each may return `False`), click Place Order, confirm the
dialog (failure caught, returns `False`), note whether the notification
toast appeared, then decide by navigating to the positions tab and
checking `get_open_positions` against `orderTableMatch`.  `current` is
`self.current_instrument_selected`. -/
def place_order_and_verify (env : PlaceOrderEnv) (form : OrderForm)
    (current : String) (order_type : String) (size : String)
    (stop_loss_points take_profit_points : Option String) : Except PyExn Bool :=
  let order_side_text := if order_type == "buy" then "Buy" else "Sell"
  match env.sideButton with
  | .error e => .error e
  | .ok _ =>
    if !(set_order_size env.sizeLocate size form.sizeField).1 then .ok false
    else if stop_loss_points.isSome
        && !(set_stop_loss env.slLocate stop_loss_points none form.slField).1 then
      .ok false
    else if take_profit_points.isSome
        && !(set_take_profit env.tpLocate take_profit_points none form.tpField).1 then
      .ok false
    else
      match env.placeButton with
      | .error e => .error e
      | .ok _ =>
        match env.confirm with
        | .error _ => .ok false
        | .ok _ =>
          let notification_found := env.notification
          if !env.navigate then .ok false
          else
            let open_positions := get_open_positions current env.table
            let _ := notification_found
            .ok (orderTableMatch current (pyUpper order_side_text) open_positions)

/-! ### Position closure (`close_position`) -/

/-- The UI outcomes one invocation of `close_position` observes:
navigation to the tab, the locate-row / click-close / confirm-dialog
sequence (all inside the try, any exception is caught and yields `False`),
whether the `Order Closed` / `Position Closed` toast appeared, the
re-navigation, and the table re-read. -/
structure CloseEnv where
  navigate1 : Bool
  locateAndClick : Except PyExn Unit
  notification : Bool
  navigate2 : Bool
  table : TableRead
deriving Repr

/-- `close_position(order_no, row_index)`: navigate (failure is `False`),
click the row's Close button and confirm (exceptions caught, `False`),
note the closed-notification, re-navigate (failure is `False`), re-read
the table.  With an `order_no`, succeed iff no remaining position carries
it; without one, succeed iff the notification was seen. -/
def close_position (env : CloseEnv) (current : String)
    (order_no : Option String) : Bool :=
  if !env.navigate1 then false
  else
    match env.locateAndClick with
    | .error _ => false
    | .ok _ =>
      let notification_closed := env.notification
      if !env.navigate2 then false
      else
        let current_positions := get_open_positions current env.table
        match order_no with
        | some no => !(current_positions.any fun pos => pos.order_no == no)
        | none => notification_closed

/-! ### Individual close loop (`close_all_positions_individually`) -/

/-- What iteration `i` of the close loop observes: whether navigation to
the tab succeeded, how many Close buttons were found, the table read used
when no buttons are found, and whether the click-first-button-and-confirm
sequence completed without an exception. -/
structure IndivStep where
  navigate : Bool
  buttons : Nat
  table : TableRead
  closeOk : Bool
deriving Repr

/-- Environment of `close_all_positions_individually`: one observation
per loop iteration, plus the post-loop navigation and table read. -/
structure IndivEnv where
  step : Nat → IndivStep
  finalNavigate : Bool
  finalTable : TableRead

/-- The code after the loop: navigate (failure is `False`) and succeed
iff `get_open_positions` is empty. -/
def indivFinalCheck (env : IndivEnv) (current : String) : Bool :=
  if !env.finalNavigate then false
  else (get_open_positions current env.finalTable).isEmpty

/-- Verdict plus the number of loop iterations entered. -/
structure IndivResult where
  result : Bool
  iterations : Nat
deriving DecidableEq, Repr

/-- The `for i in range(25)` body: navigation failure returns `False`; no
Close buttons returns `not get_open_positions()`; otherwise close the
first position — an exception breaks out to the final check, success
continues the loop.  `remaining` is the number of loop iterations left,
`done` the number already entered. -/
def indivLoop (env : IndivEnv) (current : String) : Nat → Nat → IndivResult
  | 0, done => ⟨indivFinalCheck env current, done⟩
  | remaining + 1, done =>
    let s := env.step done
    if !s.navigate then ⟨false, done + 1⟩
    else if s.buttons == 0 then
      ⟨(get_open_positions current s.table).isEmpty, done + 1⟩
    else if s.closeOk then indivLoop env current remaining (done + 1)
    else ⟨indivFinalCheck env current, done + 1⟩

/-- `close_all_positions_individually()`: the bounded loop with 25
iterations, then the final check. -/
def close_all_positions_individually (env : IndivEnv) (current : String) :
    IndivResult :=
  indivLoop env current 25 0

/-! ### Bulk close (`bulk_close_positions`) -/

/-- The UI outcomes one invocation of `bulk_close_positions` observes:
first navigation, presence of the `No open positions` message, the
collective select-all / bulk-close / confirm sequence (any exception in
the try is caught and triggers the individual fallback), the
re-navigation, and the emptiness evidence after the collective action. -/
structure BulkEnv where
  navigate1 : Bool
  emptyMsg1 : Bool
  collective : Except PyExn Unit
  navigate2 : Bool
  emptyMsg2 : Bool
  table2 : TableRead
  indiv : IndivEnv

/-- Verdict of `bulk_close_positions` plus whether the collective
select-all-and-confirm action was invoked and whether the method fell
back to `close_all_positions_individually`. -/
structure BulkResult where
  result : Bool
  collectiveInvoked : Bool
  fellBack : Bool
deriving DecidableEq, Repr

/-- `bulk_close_positions()`: navigate (failure is `False`); the
`No open positions` message is immediate success; otherwise run the
collective action — an exception degrades to the individual fallback.
After it, re-navigate (failure is `False`); the message or an empty
`get_open_positions` read is success; a non-empty table degrades to the
individual fallback, whose verdict is returned. -/
def bulk_close_positions (env : BulkEnv) (current : String) : BulkResult :=
  if !env.navigate1 then ⟨false, false, false⟩
  else if env.emptyMsg1 then ⟨true, false, false⟩
  else
    match env.collective with
    | .error _ =>
      ⟨(close_all_positions_individually env.indiv current).result, true, true⟩
    | .ok _ =>
      if !env.navigate2 then ⟨false, true, false⟩
      else if env.emptyMsg2 || (get_open_positions current env.table2).isEmpty then
        ⟨true, true, false⟩
      else
        ⟨(close_all_positions_individually env.indiv current).result, true, true⟩

/-! ### Instrument selection (`select_instrument`) -/

/-- How one attempt of `select_instrument` ends: the quick
already-selected check hits; the search / click / chart-verification
sequence completes; one of its steps raises a transient exception
(`StaleElementReferenceException`, `TimeoutException`,
`ElementClickInterceptedException`); or it raises anything else. -/
inductive AttemptOutcome where
  | alreadySelected
  | attemptSuccess
  | transientFail
  | fatalFail
deriving DecidableEq, Repr

/-- Outcome of `select_instrument`: the returned boolean, the number of
attempts entered, and how many page-refresh recoveries ran. -/
structure SelectResult where
  succeeded : Bool
  attempts : Nat
  refreshes : Nat
deriving DecidableEq, Repr

/-- The `for attempt in range(retries)` loop.  `remaining` counts the
iterations left (the current attempt index is `retries - remaining`);
`refreshes` accumulates recoveries.  A transient failure refreshes and
retries unless it happened on the last allowed attempt; a fatal failure
breaks out of the loop at once; falling off the loop returns `False`. -/
def selectAux (env : Nat → AttemptOutcome) (retries : Nat) :
    Nat → Nat → SelectResult
  | 0, refreshes => ⟨false, retries, refreshes⟩
  | remaining + 1, refreshes =>
    let attempt := retries - (remaining + 1)
    match env attempt with
    | .alreadySelected => ⟨true, attempt + 1, refreshes⟩
    | .attemptSuccess => ⟨true, attempt + 1, refreshes⟩
    | .transientFail =>
      if remaining = 0 then ⟨false, attempt + 1, refreshes⟩
      else selectAux env retries remaining (refreshes + 1)
    | .fatalFail => ⟨false, attempt + 1, refreshes⟩

/-- `select_instrument(instrument_code, retries)`: run the attempt loop
with the full budget. -/
def select_instrument (env : Nat → AttemptOutcome) (retries : Nat) :
    SelectResult :=
  selectAux env retries retries 0

/-! ## Helper lemmas -/

/-- Reduction of `place_order_and_verify` on the path where every
interaction step succeeds: the verdict is exactly the table check. -/
theorem place_order_reduce (env : PlaceOrderEnv) (form : OrderForm)
    (current order_type size : String) (sl tp : Option String)
    (h1 : env.sideButton = .ok ()) (h2 : env.sizeLocate = .ok ())
    (h3 : env.slLocate = .ok ()) (h4 : env.tpLocate = .ok ())
    (h5 : env.placeButton = .ok ()) (h6 : env.confirm = .ok ())
    (h7 : env.navigate = true) :
    place_order_and_verify env form current order_type size sl tp
      = .ok (orderTableMatch current
          (pyUpper (if order_type == "buy" then "Buy" else "Sell"))
          (get_open_positions current env.table)) := by
  cases sl <;> cases tp <;>
    simp [place_order_and_verify, h1, h2, h3, h4, h5, h6, h7,
      set_order_size, set_stop_loss, set_take_profit, set_order_parameter]

/-- A parsed row always carries the in-memory instrument. -/
theorem parseRow_instrument (current : String) (r : RowObs) (pos : Position)
    (h : parseRow current r = some pos) :
    pos.instrument_for_verification = current := by
  cases r with
  | cells cols =>
    by_cases hlen : cols.length ≥ 6
    · simp only [parseRow, if_pos hlen, Option.some.injEq] at h
      subst h
      rfl
    · simp [parseRow, hlen] at h
  | staleRow => simp [parseRow] at h
  | rowError => simp [parseRow] at h

/-- Every record `get_open_positions` produces carries the in-memory
instrument, whatever the table read contained. -/
theorem get_open_positions_instrument (current : String) (t : TableRead) :
    ∀ pos ∈ get_open_positions current t, pos.instrument_for_verification = current := by
  intro pos hpos
  cases t with
  | rows rs =>
    simp only [get_open_positions, List.mem_filterMap] at hpos
    obtain ⟨r, _, hparse⟩ := hpos
    exact parseRow_instrument current r pos hparse
  | noPositionsMsg => simp [get_open_positions] at hpos
  | waitTimeout => simp [get_open_positions] at hpos
  | readError => simp [get_open_positions] at hpos

/-! ## Claims -/

/-- C9: `set_order_size` and `_set_order_parameter` both run the
clear-before-type key sequence, so invoking the same field-fill twice in
sequence leaves the field containing only the second value. -/
theorem field_fill_second_value_wins (field : FieldState)
    (sz1 sz2 tid v1 v2 : String) :
    ((set_order_size (.ok ()) sz2 (set_order_size (.ok ()) sz1 field).2).2).content = sz2
    ∧ ((set_order_parameter (.ok ()) tid v2
        (set_order_parameter (.ok ()) tid v1 field).2).2).content = v2 := by
  constructor <;>
    simp [set_order_size, set_order_parameter, fieldFill, keySend, keyDelete,
      keySelectAll, keyClick]

/-- C10: `take_screenshot` returns its computed file name whatever the
underlying capture does — a capture exception is swallowed, never
propagated to the caller. -/
theorem take_screenshot_never_raises (capture : String → Except PyExn Unit)
    (dir name timestamp : String) :
    take_screenshot capture dir name timestamp = screenshot_filename dir name timestamp := by
  cases h : capture (screenshot_filename dir name timestamp) <;>
    simp [take_screenshot, h]

/-- C7: on an authoritative table showing the `No open positions`
message, `bulk_close_positions` returns success at once, without invoking
the collective select-all-and-confirm action and without falling back. -/
theorem bulk_close_empty_table_trivial (env : BulkEnv) (current : String)
    (h1 : env.navigate1 = true) (h2 : env.emptyMsg1 = true) :
    bulk_close_positions env current = ⟨true, false, false⟩ := by
  simp [bulk_close_positions, h1, h2]

/-- Concrete environment for the empty-table bulk close scenario. -/
def bulkEmptyEnv : BulkEnv :=
  { navigate1 := true
    emptyMsg1 := true
    collective := .ok ()
    navigate2 := true
    emptyMsg2 := true
    table2 := .noPositionsMsg
    indiv :=
      { step := fun _ => ⟨true, 0, .noPositionsMsg, true⟩
        finalNavigate := true
        finalTable := .noPositionsMsg } }

/-- C7 witness: the empty-table scenario at a concrete environment. -/
theorem bulk_close_empty_table_trivial_witness :
    bulkEmptyEnv.navigate1 = true ∧ bulkEmptyEnv.emptyMsg1 = true
    ∧ bulk_close_positions bulkEmptyEnv "DASHUSD.std" = ⟨true, false, false⟩ :=
  ⟨rfl, rfl, bulk_close_empty_table_trivial bulkEmptyEnv "DASHUSD.std" rfl rfl⟩

/-- C1: the verdict of `_place_order_and_verify` is the authoritative
table's verdict: it is the same whatever the notification outcome was,
and when the notification was seen but the table read has no row with the
expected side and instrument, the operation reports failure. -/
theorem place_order_verdict_from_table (env : PlaceOrderEnv) (form : OrderForm)
    (current order_type size : String) (sl tp : Option String)
    (h1 : env.sideButton = .ok ()) (h2 : env.sizeLocate = .ok ())
    (h3 : env.slLocate = .ok ()) (h4 : env.tpLocate = .ok ())
    (h5 : env.placeButton = .ok ()) (h6 : env.confirm = .ok ())
    (h7 : env.navigate = true) :
    (∀ b, place_order_and_verify { env with notification := b } form current
        order_type size sl tp
      = place_order_and_verify env form current order_type size sl tp)
    ∧ (env.notification = true →
       orderTableMatch current (pyUpper (if order_type == "buy" then "Buy" else "Sell"))
         (get_open_positions current env.table) = false →
       place_order_and_verify env form current order_type size sl tp = .ok false) := by
  constructor
  · intro b
    exact place_order_reduce { env with notification := b } form current
        order_type size sl tp h1 h2 h3 h4 h5 h6 h7 |>.trans
      (place_order_reduce env form current order_type size sl tp
        h1 h2 h3 h4 h5 h6 h7).symm
  · intro _ hmatch
    rw [place_order_reduce env form current order_type size sl tp
      h1 h2 h3 h4 h5 h6 h7, hmatch]

/-- Concrete environment for the notification-without-table-row
scenario: every interaction succeeds, the toast fires, the table re-read
shows no positions. -/
def placeDivergenceEnv : PlaceOrderEnv :=
  { sideButton := .ok ()
    sizeLocate := .ok ()
    slLocate := .ok ()
    tpLocate := .ok ()
    placeButton := .ok ()
    confirm := .ok ()
    notification := true
    navigate := true
    table := .noPositionsMsg }

/-- Blank order form used by the concrete scenarios. -/
def blankForm : OrderForm :=
  { sizeField := ⟨"", false⟩, slField := ⟨"", false⟩, tpField := ⟨"", false⟩ }

/-- C1 witness: notification seen, no matching row — the verdict is
failure. -/
theorem place_order_verdict_from_table_witness :
    placeDivergenceEnv.notification = true
    ∧ place_order_and_verify placeDivergenceEnv blankForm "DASHUSD.std" "buy"
        "0.01" none none = .ok false :=
  ⟨rfl,
    (place_order_verdict_from_table placeDivergenceEnv blankForm "DASHUSD.std"
      "buy" "0.01" none none rfl rfl rfl rfl rfl rfl rfl).2 rfl rfl⟩

/-- C2: every Position Record from `get_open_positions` has its
`instrument_for_verification` set to the engine's in-memory
`current_instrument_selected` (never to a value read from the row), so
the verification in `_place_order_and_verify` succeeds whenever any open
position of the matching side exists, whatever that position's actual
instrument was. -/
theorem position_instrument_from_memory (env : PlaceOrderEnv) (form : OrderForm)
    (current order_type size : String) (sl tp : Option String)
    (h1 : env.sideButton = .ok ()) (h2 : env.sizeLocate = .ok ())
    (h3 : env.slLocate = .ok ()) (h4 : env.tpLocate = .ok ())
    (h5 : env.placeButton = .ok ()) (h6 : env.confirm = .ok ())
    (h7 : env.navigate = true) (hcur : pyStrip current = current) :
    (∀ t : TableRead, ∀ pos ∈ get_open_positions current t,
        pos.instrument_for_verification = current)
    ∧ ((∃ pos ∈ get_open_positions current env.table,
          pos.type = pyUpper (if order_type == "buy" then "Buy" else "Sell")) →
        place_order_and_verify env form current order_type size sl tp = .ok true) := by
  refine ⟨fun t => get_open_positions_instrument current t, fun hside => ?_⟩
  rw [place_order_reduce env form current order_type size sl tp
    h1 h2 h3 h4 h5 h6 h7]
  obtain ⟨pos, hmem, hty⟩ := hside
  have hinst := get_open_positions_instrument current env.table pos hmem
  have : orderTableMatch current (pyUpper (if order_type == "buy" then "Buy" else "Sell"))
      (get_open_positions current env.table) = true := by
    rw [orderTableMatch, List.any_eq_true]
    exact ⟨pos, hmem, by simp [hty, hinst, hcur]⟩
  rw [this]

/-- Concrete environment whose table row was opened with side BUY; the
row cells carry no instrument column at all. -/
def orderTableEnv : PlaceOrderEnv :=
  { sideButton := .ok ()
    sizeLocate := .ok ()
    slLocate := .ok ()
    tpLocate := .ok ()
    placeButton := .ok ()
    confirm := .ok ()
    notification := false
    navigate := true
    table := .rows [.cells ["2024-01-01", "A1", "Buy", "0.00", "0.01", "1"]] }

/-- C2 witness: a BUY row verifies a buy order even though the table row
never mentions the instrument. -/
theorem position_instrument_from_memory_witness :
    pyStrip "DASHUSD.std" = "DASHUSD.std"
    ∧ (∃ pos ∈ get_open_positions "DASHUSD.std" orderTableEnv.table,
        pos.type = pyUpper (if "buy" == "buy" then "Buy" else "Sell"))
    ∧ place_order_and_verify orderTableEnv blankForm "DASHUSD.std" "buy"
        "0.01" none none = .ok true :=
  ⟨by decide,
   ⟨⟨"DASHUSD.std", "2024-01-01", "A1", "BUY", "0.00", "0.01", "1"⟩,
     by decide, by decide⟩,
   (position_instrument_from_memory orderTableEnv blankForm "DASHUSD.std"
      "buy" "0.01" none none rfl rfl rfl rfl rfl rfl rfl (by decide)).2
     ⟨⟨"DASHUSD.std", "2024-01-01", "A1", "BUY", "0.00", "0.01", "1"⟩,
       by decide, by decide⟩⟩

/-- Concrete environment for a closure by row index: every interaction
succeeds, the closed-notification is seen, yet the re-read table still
holds the row with order number A1. -/
def closeByIndexEnv : CloseEnv :=
  { navigate1 := true
    locateAndClick := .ok ()
    notification := true
    navigate2 := true
    table := .rows [.cells ["2024-01-01", "A1", "Buy", "0.00", "0.01", "1"]] }

/-- C3 counterexample: invoked without an order number (by row index),
`close_position` returns success on the notification alone although the
re-read table still contains the order's identifier — so the verdict is
not the authoritative table's on every invocation. -/
theorem close_position_notification_counterexample :
    close_position closeByIndexEnv "DASHUSD.std" none = true
    ∧ (get_open_positions "DASHUSD.std" closeByIndexEnv.table).any
        (fun pos => pos.order_no == "A1") = true := by
  constructor <;> decide

/-- C3 amended: when `close_position` is invoked with an order
identifier, its verdict is the authoritative table's — success exactly
when the re-read shows no row with that identifier — and does not depend
on the notification; when invoked by row index only, the verdict is the
notification's outcome alone. -/
theorem close_position_verdict (env : CloseEnv) (current no : String)
    (h1 : env.navigate1 = true) (h2 : env.locateAndClick = .ok ())
    (h3 : env.navigate2 = true) :
    (∀ b, close_position { env with notification := b } current (some no)
        = close_position env current (some no))
    ∧ (close_position env current (some no) = true ↔
        ∀ pos ∈ get_open_positions current env.table, pos.order_no ≠ no)
    ∧ close_position env current none = env.notification := by
  refine ⟨fun b => ?_, ?_, ?_⟩
  · simp [close_position, h1, h2, h3]
  · simp [close_position, h1, h2, h3, List.any_eq_true]
  · simp [close_position, h1, h2, h3]

/-- C3 witness: the amended verdict rule at the concrete environment —
with the identifier A1 supplied, the still-present row forces failure. -/
theorem close_position_verdict_witness :
    closeByIndexEnv.navigate1 = true
    ∧ closeByIndexEnv.locateAndClick = .ok ()
    ∧ closeByIndexEnv.navigate2 = true
    ∧ (close_position closeByIndexEnv "DASHUSD.std" (some "A1") = true ↔
        ∀ pos ∈ get_open_positions "DASHUSD.std" closeByIndexEnv.table,
          pos.order_no ≠ "A1") :=
  ⟨rfl, rfl, rfl,
    (close_position_verdict closeByIndexEnv "DASHUSD.std" "A1" rfl rfl rfl).2.1⟩

/-- The close loop enters at most `remaining` further iterations. -/
theorem indivLoop_iterations_le (env : IndivEnv) (current : String) :
    ∀ remaining done, (indivLoop env current remaining done).iterations ≤ done + remaining := by
  intro remaining
  induction remaining with
  | zero => intro done; simp [indivLoop]
  | succ r ih =>
    intro done
    simp only [indivLoop]
    split
    · dsimp only
      omega
    · split
      · dsimp only
        omega
      · split
        · have := ih (done + 1)
          omega
        · dsimp only
          omega

/-- When every iteration proceeds (navigation succeeds, buttons remain,
the close click raises nothing), the loop runs to its bound and ends in
the final check. -/
theorem indivLoop_runs_full (env : IndivEnv) (current : String) :
    ∀ remaining done,
      (∀ i, done ≤ i → i < done + remaining →
        (env.step i).navigate = true ∧ (env.step i).buttons ≠ 0
          ∧ (env.step i).closeOk = true) →
      indivLoop env current remaining done
        = ⟨indivFinalCheck env current, done + remaining⟩ := by
  intro remaining
  induction remaining with
  | zero => intro done _; simp [indivLoop]
  | succ r ih =>
    intro done hsteps
    obtain ⟨hnav, hbtn, hok⟩ := hsteps done (le_refl done) (by omega)
    have hrec := ih (done + 1) (fun i h1 h2 => hsteps i (by omega) (by omega))
    simp only [indivLoop, hnav, hok, Bool.not_true, Bool.false_eq_true,
      if_false, if_true]
    rw [if_neg (by simpa using hbtn), hrec]
    congr 1
    omega

/-- C4: `close_all_positions_individually` always terminates — its loop
enters at most 25 iterations for every environment — and when the bound
is reached with open positions still in the final table read, the
verdict is failure. -/
theorem individual_close_bounded (env : IndivEnv) (current : String)
    (hsteps : ∀ i, i < 25 →
      (env.step i).navigate = true ∧ (env.step i).buttons ≠ 0
        ∧ (env.step i).closeOk = true)
    (hrem : get_open_positions current env.finalTable ≠ []) :
    (∀ env2 : IndivEnv, ∀ cur2 : String,
      (close_all_positions_individually env2 cur2).iterations ≤ 25)
    ∧ close_all_positions_individually env current = ⟨false, 25⟩ := by
  constructor
  · intro env2 cur2
    simpa using indivLoop_iterations_le env2 cur2 25 0
  · rw [close_all_positions_individually,
      indivLoop_runs_full env current 25 0 (fun i h1 h2 => hsteps i (by omega))]
    have hempty : (get_open_positions current env.finalTable).isEmpty = false := by
      simp [List.isEmpty_eq_false, hrem]
    unfold indivFinalCheck
    cases env.finalNavigate <;> simp [hempty]

/-- Concrete environment in which every iteration closes without error
but the table never empties. -/
def stuckIndivEnv : IndivEnv :=
  { step := fun _ => ⟨true, 1, .noPositionsMsg, true⟩
    finalNavigate := true
    finalTable := .rows [.cells ["2024-01-01", "A1", "Buy", "0.00", "0.01", "1"]] }

/-- C4 witness: with a stuck row, the loop stops after its 25 iterations
and reports failure. -/
theorem individual_close_bounded_witness :
    (∀ i, i < 25 →
      (stuckIndivEnv.step i).navigate = true ∧ (stuckIndivEnv.step i).buttons ≠ 0
        ∧ (stuckIndivEnv.step i).closeOk = true)
    ∧ get_open_positions "DASHUSD.std" stuckIndivEnv.finalTable ≠ []
    ∧ close_all_positions_individually stuckIndivEnv "DASHUSD.std" = ⟨false, 25⟩ :=
  ⟨fun i _ => ⟨rfl, one_ne_zero, rfl⟩, by decide,
    (individual_close_bounded stuckIndivEnv "DASHUSD.std"
      (fun i _ => ⟨rfl, one_ne_zero, rfl⟩) (by decide)).2⟩

/-- The attempt count of the selection loop never exceeds the budget. -/
theorem selectAux_attempts_le (env : Nat → AttemptOutcome) (retries : Nat) :
    ∀ remaining refreshes, remaining ≤ retries →
      (selectAux env retries remaining refreshes).attempts ≤ retries := by
  intro remaining
  induction remaining with
  | zero => intro refreshes _; simp [selectAux]
  | succ r ih =>
    intro refreshes hle
    simp only [selectAux]
    cases env (retries - (r + 1)) with
    | alreadySelected => dsimp only; omega
    | attemptSuccess => dsimp only; omega
    | transientFail =>
      dsimp only
      by_cases hr : r = 0
      · rw [if_pos hr]
        dsimp only
        omega
      · rw [if_neg hr]
        exact ih (refreshes + 1) (by omega)
    | fatalFail => dsimp only; omega

/-- With every attempt failing transiently, the loop exhausts the budget
and the invocation fails. -/
theorem selectAux_all_transient (env : Nat → AttemptOutcome) (retries : Nat)
    (hall : ∀ i, i < retries → env i = .transientFail) :
    ∀ remaining refreshes, remaining ≤ retries →
      (selectAux env retries remaining refreshes).succeeded = false := by
  intro remaining
  induction remaining with
  | zero => intro refreshes _; simp [selectAux]
  | succ r ih =>
    intro refreshes hle
    simp only [selectAux]
    rw [hall (retries - (r + 1)) (by omega)]
    dsimp only
    by_cases hr : r = 0
    · rw [if_pos hr]
    · rw [if_neg hr]
      exact ih (refreshes + 1) (by omega)

/-- After `k` transient attempts the loop stands at attempt `k` with `k`
recoveries done. -/
theorem selectAux_advance (env : Nat → AttemptOutcome) (retries : Nat) :
    ∀ k, k < retries → (∀ j, j < k → env j = .transientFail) →
      selectAux env retries retries 0 = selectAux env retries (retries - k) k := by
  intro k
  induction k with
  | zero => intro _ _; rfl
  | succ k ih =>
    intro hk hprev
    rw [ih (by omega) (fun j hj => hprev j (by omega))]
    have hsub : retries - k = (retries - (k + 1)) + 1 := by omega
    rw [hsub]
    simp only [selectAux]
    have hattempt : retries - (retries - (k + 1) + 1) = k := by omega
    rw [hattempt, hprev k (by omega)]
    dsimp only
    have hne : retries - (k + 1) ≠ 0 := by omega
    rw [if_neg hne]

/-- Entering the loop with budget left consumes at least one more
attempt than already spent. -/
theorem selectAux_attempts_ge (env : Nat → AttemptOutcome) (retries : Nat) :
    ∀ remaining refreshes, 1 ≤ remaining → remaining ≤ retries →
      retries - remaining + 1 ≤ (selectAux env retries remaining refreshes).attempts := by
  intro remaining
  induction remaining with
  | zero => intro refreshes h; omega
  | succ r ih =>
    intro refreshes _ hle
    simp only [selectAux]
    cases env (retries - (r + 1)) with
    | alreadySelected => dsimp only; omega
    | attemptSuccess => dsimp only; omega
    | transientFail =>
      dsimp only
      by_cases hr : r = 0
      · rw [if_pos hr]
      · rw [if_neg hr]
        have := ih (refreshes + 1) (by omega) (by omega)
        omega
    | fatalFail => dsimp only; omega

/-- The recovery count only grows along the loop. -/
theorem selectAux_refreshes_ge (env : Nat → AttemptOutcome) (retries : Nat) :
    ∀ remaining refreshes, refreshes ≤ (selectAux env retries remaining refreshes).refreshes := by
  intro remaining
  induction remaining with
  | zero => intro refreshes; simp [selectAux]
  | succ r ih =>
    intro refreshes
    simp only [selectAux]
    cases env (retries - (r + 1)) with
    | alreadySelected => dsimp only; omega
    | attemptSuccess => dsimp only; omega
    | transientFail =>
      dsimp only
      by_cases hr : r = 0
      · rw [if_pos hr]
      · rw [if_neg hr]
        have := ih (refreshes + 1)
        omega
    | fatalFail => dsimp only; omega

/-- C5: `select_instrument` performs at most `retries` attempts for every
environment, and exhausting the budget (every attempt failing
transiently) yields a failed result rather than an unhandled fault. -/
theorem select_instrument_budget (env : Nat → AttemptOutcome) (retries : Nat)
    (hall : ∀ i, i < retries → env i = .transientFail) :
    (∀ env2 : Nat → AttemptOutcome,
      (select_instrument env2 retries).attempts ≤ retries)
    ∧ (select_instrument env retries).succeeded = false :=
  ⟨fun env2 => selectAux_attempts_le env2 retries retries 0 (le_refl retries),
   selectAux_all_transient env retries hall retries 0 (le_refl retries)⟩

/-- C5 witness: three transient attempts exhaust a budget of 3 and the
invocation returns failure. -/
theorem select_instrument_budget_witness :
    (∀ i, i < 3 → (fun _ : Nat => AttemptOutcome.transientFail) i = .transientFail)
    ∧ (select_instrument (fun _ => .transientFail) 3).succeeded = false :=
  ⟨fun _ _ => rfl,
    (select_instrument_budget (fun _ => .transientFail) 3 (fun _ _ => rfl)).2⟩

/-- C6: the retry decision is a function of the failure class.  With the
first `k` attempts transient: a fatal (unclassified) failure at attempt
`k` aborts at once — `k + 1` attempts consumed, no further recovery —
whereas a transient failure at attempt `k` recovers and enters another
attempt unless `k` was the last allowed attempt, in which case the loop
ends in failure with the budget consumed. -/
theorem select_retry_decision (env : Nat → AttemptOutcome) (retries k : Nat)
    (hk : k < retries) (hprev : ∀ j, j < k → env j = .transientFail) :
    (env k = .fatalFail →
      select_instrument env retries = ⟨false, k + 1, k⟩)
    ∧ (env k = .transientFail → k + 1 < retries →
        k + 2 ≤ (select_instrument env retries).attempts
        ∧ k + 1 ≤ (select_instrument env retries).refreshes)
    ∧ (env k = .transientFail → k + 1 = retries →
        select_instrument env retries = ⟨false, retries, k⟩) := by
  refine ⟨fun hf => ?_, fun ht hk1 => ?_, fun ht hk1 => ?_⟩
  · rw [select_instrument, selectAux_advance env retries k hk hprev]
    have hsub : retries - k = (retries - (k + 1)) + 1 := by omega
    rw [hsub]
    simp only [selectAux]
    have hattempt : retries - (retries - (k + 1) + 1) = k := by omega
    rw [hattempt, hf]
  · have hprev1 : ∀ j, j < k + 1 → env j = .transientFail := by
      intro j hj
      rcases Nat.lt_succ_iff_lt_or_eq.mp hj with h | h
      · exact hprev j h
      · rw [h]; exact ht
    rw [select_instrument, selectAux_advance env retries (k + 1) hk1 hprev1]
    constructor
    · have := selectAux_attempts_ge env retries (retries - (k + 1)) (k + 1)
        (by omega) (by omega)
      omega
    · exact selectAux_refreshes_ge env retries (retries - (k + 1)) (k + 1)
  · subst hk1
    rw [select_instrument, selectAux_advance env (k + 1) k (by omega) hprev]
    have hsub : k + 1 - k = 0 + 1 := by omega
    rw [hsub]
    simp only [selectAux]
    have hattempt : k + 1 - (0 + 1) = k := by omega
    rw [hattempt, ht]
    rfl

/-- Environment for the C6 witness: attempt 0 transient, attempt 1
fatal. -/
def fatalAtOneEnv : Nat → AttemptOutcome :=
  fun i => if i == 1 then .fatalFail else .transientFail

/-- C6 witness: with budget 3, the fatal failure at attempt 1 ends the
invocation after exactly 2 attempts and the single recovery of attempt
0. -/
theorem select_retry_decision_witness :
    (1 < 3 ∧ (∀ j, j < 1 → fatalAtOneEnv j = .transientFail)
      ∧ fatalAtOneEnv 1 = .fatalFail)
    ∧ select_instrument fatalAtOneEnv 3 = ⟨false, 2, 1⟩ :=
  ⟨⟨by omega, fun j hj => by interval_cases j; rfl, rfl⟩,
    (select_retry_decision fatalAtOneEnv 3 1 (by omega)
      (fun j hj => by interval_cases j; rfl)).1 rfl⟩

/-- C8: when the collective bulk-close path fails — it raised an
exception, or the re-read table is still non-empty — `bulk_close_positions`
degrades to `close_all_positions_individually` and returns that
fallback's verdict as its own. -/
theorem bulk_close_degrades (env : BulkEnv) (current : String)
    (h1 : env.navigate1 = true) (h2 : env.emptyMsg1 = false) :
    ((∃ e, env.collective = .error e) →
      bulk_close_positions env current
        = ⟨(close_all_positions_individually env.indiv current).result, true, true⟩)
    ∧ (env.collective = .ok () → env.navigate2 = true → env.emptyMsg2 = false →
        get_open_positions current env.table2 ≠ [] →
        bulk_close_positions env current
          = ⟨(close_all_positions_individually env.indiv current).result, true, true⟩) := by
  constructor
  · rintro ⟨e, he⟩
    simp [bulk_close_positions, h1, h2, he]
  · intro hok hn he2 hne
    have hempty : (get_open_positions current env.table2).isEmpty = false := by
      simp [List.isEmpty_eq_false, hne]
    simp [bulk_close_positions, h1, h2, hok, hn, he2, hempty]

/-- Environment in which the collective bulk close raises a timeout; the
individual fallback then finds nothing left to close. -/
def bulkExceptionEnv : BulkEnv :=
  { navigate1 := true
    emptyMsg1 := false
    collective := .error .timeoutExn
    navigate2 := true
    emptyMsg2 := false
    table2 := .noPositionsMsg
    indiv :=
      { step := fun _ => ⟨true, 0, .noPositionsMsg, true⟩
        finalNavigate := true
        finalTable := .noPositionsMsg } }

/-- C8 witness: the collective action throws and the verdict returned is
the individual fallback's. -/
theorem bulk_close_degrades_witness :
    bulkExceptionEnv.navigate1 = true ∧ bulkExceptionEnv.emptyMsg1 = false
    ∧ (∃ e, bulkExceptionEnv.collective = .error e)
    ∧ bulk_close_positions bulkExceptionEnv "DASHUSD.std"
        = ⟨(close_all_positions_individually bulkExceptionEnv.indiv "DASHUSD.std").result,
            true, true⟩ :=
  ⟨rfl, rfl, ⟨.timeoutExn, rfl⟩,
    (bulk_close_degrades bulkExceptionEnv "DASHUSD.std" rfl rfl).1 ⟨.timeoutExn, rfl⟩⟩

end Aquariux
